import Mathlib

/-!
Shallow embedding of the datasheet download orchestration core
(src/index.js of welllife1010/invalid-datasheet-url-download).

The HTTP layer, the rendering engine and the file system are external
collaborators; each per-attempt outcome they would deliver is supplied as an
explicit input, while every control-flow decision of the source (the attempt
loop of downloadWithGot, the identity loop, the fallback, the reconcile and
cursor logic of downloadDatasheets) is translated faithfully from the code.

Two consequences of the source's own JavaScript semantics are part of the
model.  First, downloadWithGot returns the streaming promise at line 99
without awaiting it, so a rejection delivered through the stream (which is
how HTTP status errors such as 404 and 503 arrive) bypasses the catch block
at lines 117-140 entirely: the call makes one attempt and settles with the
raw outcome, and the 503/429 retry-and-backoff classification can only ever
see errors thrown synchronously by got.stream itself.  Second, the variable
isUpdatingLastIndex read at line 277 is never declared anywhere in the module
(an ES module runs in strict mode), so after an item's try/catch finishes,
every task throws a ReferenceError: the lastIndex increment at line 282 and
the per-item saveState at line 286 are unreachable, and each task's promise
rejects.
-/

/-- An error surfaced by one HTTP download attempt: an optional status code
(error.response.statusCode in the source) and the error message string. -/
structure HttpError where
  statusCode : Option Nat
  message : String
deriving Repr, DecidableEq

deriving instance DecidableEq for Except

/-- The outcome of one iteration of downloadWithGot's attempt loop.
streamSettled means got.stream returned a stream: the function then returns
the inner promise (line 99, no await), whose settlement (ok for a finished
write, error for a stream or writer rejection) becomes the call's own result,
bypassing the catch.  syncThrow means got.stream (or the write-stream setup)
threw synchronously, which is the only way the catch block can run. -/
inductive AttemptOutcome where
  | streamSettled : Except HttpError Unit → AttemptOutcome
  | syncThrow : HttpError → AttemptOutcome
deriving Repr, DecidableEq

/-- Result of one downloadWithGot call: whether it returned normally or threw,
how many attempts it made, and the backoff delays (in ms) it slept, in order. -/
structure GotResult where
  result : Except HttpError Unit
  attempts : Nat
  delays : List Nat
deriving Repr, DecidableEq

/-- The attempt loop of downloadWithGot (src/index.js lines 79-142), one fuel
unit per remaining loop iteration; attempt is the 1-based loop counter and the
call sites keep attempt + fuel = retryLimit + 1.  When got.stream returns a
stream, the function returns the wrapping promise at line 99 without await:
the loop ends right there after this single attempt and the promise's
settlement, rejection included, is the call's result (a rejection never
reaches the catch).  Only a synchronous throw enters the catch at lines
117-140, transcribed as written: its 503 branch sleeps
2^attempt * 1000 + jitter and its 429 branch 2^attempt * 2000 before retrying,
with the max-retries error after the last attempt (in the source a
synchronous throw carries no error.response, so those two branches are
unreachable for HTTP status errors); any other synchronous error is rethrown
when attempt = retryLimit and otherwise retried with no delay.  When fuel is
exhausted the loop falls through and returns normally. -/
def gotLoop (outcomes : Nat → AttemptOutcome) (jitter : Nat → Nat) (retryLimit : Nat) :
    Nat → Nat → GotResult
  | _, 0 => { result := .ok (), attempts := 0, delays := [] }
  | attempt, fuel + 1 =>
    match outcomes attempt with
    | .streamSettled r => { result := r, attempts := 1, delays := [] }
    | .syncThrow e =>
      if e.statusCode = some 503 then
        if attempt < retryLimit then
          let t := gotLoop outcomes jitter retryLimit (attempt + 1) fuel
          { result := t.result, attempts := t.attempts + 1,
            delays := (2 ^ attempt * 1000 + jitter attempt) :: t.delays }
        else
          { result := .error ⟨none, "503 Service Unavailable (Max retries reached)"⟩,
            attempts := 1, delays := [] }
      else if e.statusCode = some 429 then
        if attempt < retryLimit then
          let t := gotLoop outcomes jitter retryLimit (attempt + 1) fuel
          { result := t.result, attempts := t.attempts + 1,
            delays := (2 ^ attempt * 2000) :: t.delays }
        else
          { result := .error ⟨none, "429 Too Many Requests (Max retries reached)"⟩,
            attempts := 1, delays := [] }
      else
        if attempt = retryLimit then
          { result := .error e, attempts := 1, delays := [] }
        else
          let t := gotLoop outcomes jitter retryLimit (attempt + 1) fuel
          { result := t.result, attempts := t.attempts + 1, delays := t.delays }

/-- downloadWithGot: for (let attempt = 1; attempt <= RETRY_LIMIT; attempt++).
With retryLimit = 0 the loop body never runs and the function returns normally
(undefined in the source) having made no attempt; with retryLimit >= 1 the
first attempt whose got.stream call returns a stream is also the last, its
settlement delivered raw to the caller. -/
def downloadWithGot (outcomes : Nat → AttemptOutcome) (jitter : Nat → Nat)
    (retryLimit : Nat) : GotResult :=
  gotLoop outcomes jitter retryLimit 1 retryLimit

/-- The fixed identity pool of the source (five browser user-agent strings). -/
def USER_AGENTS : List String :=
  ["Mozilla/5.0 (Windows NT 10.0; Win64; x64) AppleWebKit/537.36 (KHTML, like Gecko) Chrome/58.0.3029.110 Safari/537.3",
   "Mozilla/5.0 (Macintosh; Intel Mac OS X 10_15_7) AppleWebKit/605.1.15 (KHTML, like Gecko) Version/14.0.3 Safari/605.1.15",
   "Mozilla/5.0 (Windows NT 10.0; Win64; x64; rv:85.0) Gecko/20100101 Firefox/85.0",
   "Mozilla/5.0 (X11; Linux x86_64) AppleWebKit/537.36 (KHTML, like Gecko) Chrome/88.0.4324.96 Safari/537.36",
   "Mozilla/5.0 (iPhone; CPU iPhone OS 14_3 like Mac OS X) AppleWebKit/605.1.15 (KHTML, like Gecko) Version/14.0 Mobile/15E148 Safari/604.1"]

/-- One input record of the batch. -/
structure DownloadItem where
  id : Nat
  title : String
  url : String
deriving Repr, DecidableEq

/-- One entry pushed onto state.tasks when an item resolves. -/
structure TaskRecord where
  id : Nat
  url : String
  status : String
  reason : Option String
deriving Repr, DecidableEq

/-- One entry appended to the failed-items JSON file. -/
structure FailureRecord where
  id : Nat
  title : String
  url : String
  reason : String
deriving Repr, DecidableEq

/-- The persisted progress state.  totalTasks is an Option because the default
object literal of loadState (src/index.js line 32) has no totalTasks key. -/
structure ProgressState where
  lastIndex : Nat
  totalTasks : Option Nat
  tasks : List TaskRecord
deriving Repr, DecidableEq

/-- loadState (src/index.js lines 28-33): the persisted state when the state
file exists, else the default object, which carries lastIndex 0 and an empty
tasks array but no totalTasks field. -/
def loadState (persisted : Option ProgressState) : ProgressState :=
  match persisted with
  | some s => s
  | none => { lastIndex := 0, totalTasks := none, tasks := [] }

/-- getCookies (src/index.js lines 60-75): on success the cookie jar is joined
into a header string; on error the catch block logs and rethrows, so the error
propagates to the caller unchanged. -/
def getCookies (navResult : Except String (List (String × String))) :
    Except String String :=
  match navResult with
  | .ok cookies =>
      .ok (String.intercalate "; " (cookies.map (fun c => c.1 ++ "=" ++ c.2)))
  | .error e => .error e

/-- External outcomes supplied to the processing of one item: the renderer
navigation used for cookie harvesting, the outcome of each HTTP attempt
(indexed by identity position, then 1-based attempt number), the jitter drawn
for each backoff sleep, and the outcome of the Puppeteer fallback. -/
structure ItemEnv where
  cookieNav : Except String (List (String × String))
  gotOutcomes : Nat → Nat → AttemptOutcome
  jitter : Nat → Nat
  puppeteerResult : Except String Unit

/-- Result of the identity-pool loop over USER_AGENTS for one item. -/
structure LoopResult where
  success : Bool
  failures : List FailureRecord
  attempts : List Nat
deriving Repr, DecidableEq

/-- The for-of loop over USER_AGENTS (src/index.js lines 227-255).  A normal
return from downloadWithGot sets success and breaks; an error with message
exactly "404 Not Found" appends a FailureRecord with reason "404 Not Found"
and breaks; an error with message exactly
"503 Service Unavailable (Max retries reached)" appends a FailureRecord with
reason "503 Service Unavailable" and breaks; any other error is logged and the
loop moves to the next identity.  attempts records, per identity actually
tried, how many HTTP attempts downloadWithGot made for it. -/
def identityLoop (item : DownloadItem) (env : ItemEnv) (retryLimit : Nat) :
    List String → Nat → LoopResult
  | [], _ => { success := false, failures := [], attempts := [] }
  | _ :: rest, idx =>
    let g := downloadWithGot (env.gotOutcomes idx) env.jitter retryLimit
    match g.result with
    | .ok _ => { success := true, failures := [], attempts := [g.attempts] }
    | .error e =>
      if e.message = "404 Not Found" then
        { success := false,
          failures := [{ id := item.id, title := item.title, url := item.url,
                         reason := "404 Not Found" }],
          attempts := [g.attempts] }
      else if e.message = "503 Service Unavailable (Max retries reached)" then
        { success := false,
          failures := [{ id := item.id, title := item.title, url := item.url,
                         reason := "503 Service Unavailable" }],
          attempts := [g.attempts] }
      else
        let t := identityLoop item env retryLimit rest (idx + 1)
        { success := t.success, failures := t.failures,
          attempts := g.attempts :: t.attempts }

/-- Resolution of one item: the single TaskRecord pushed for it, the
FailureRecords appended while processing it, the per-identity attempt counts,
and whether the Puppeteer fallback was invoked. -/
structure ItemResult where
  record : TaskRecord
  failures : List FailureRecord
  attemptsPerIdentity : List Nat
  fallbackInvoked : Bool
deriving Repr, DecidableEq

/-- The per-item body of downloadDatasheets (src/index.js lines 222-274).
getCookies runs first inside the outer try: an error there jumps straight to
the outer catch, which pushes a failed TaskRecord and appends a FailureRecord
with the error message.  Otherwise the identity loop runs; if it did not
succeed the Puppeteer fallback is invoked, whose own error likewise reaches
the outer catch.  Every path that falls through without an exception pushes a
completed TaskRecord. -/
def processItem (item : DownloadItem) (env : ItemEnv) (retryLimit : Nat) : ItemResult :=
  match getCookies env.cookieNav with
  | .error msg =>
    { record := { id := item.id, url := item.url, status := "failed",
                  reason := some msg },
      failures := [{ id := item.id, title := item.title, url := item.url,
                     reason := msg }],
      attemptsPerIdentity := [], fallbackInvoked := false }
  | .ok _ =>
    let loopRes := identityLoop item env retryLimit USER_AGENTS 0
    if loopRes.success then
      { record := { id := item.id, url := item.url, status := "completed",
                    reason := none },
        failures := loopRes.failures,
        attemptsPerIdentity := loopRes.attempts, fallbackInvoked := false }
    else
      match env.puppeteerResult with
      | .ok _ =>
        { record := { id := item.id, url := item.url, status := "completed",
                      reason := none },
          failures := loopRes.failures,
          attemptsPerIdentity := loopRes.attempts, fallbackInvoked := true }
      | .error pmsg =>
        { record := { id := item.id, url := item.url, status := "failed",
                      reason := some pmsg },
          failures := loopRes.failures ++
            [{ id := item.id, title := item.title, url := item.url,
               reason := pmsg }],
          attemptsPerIdentity := loopRes.attempts, fallbackInvoked := true }

/-- The reset condition of downloadDatasheets line 193:
!state.totalTasks || state.totalTasks !== jsonData.length, where a missing or
zero totalTasks is falsy. -/
def needsReset (st : ProgressState) (currentTotal : Nat) : Bool :=
  match st.totalTasks with
  | none => true
  | some t => t = 0 || t ≠ currentTotal

/-- The reconcile step (src/index.js lines 192-198): when the reset condition
holds, totalTasks is set to the batch length and lastIndex to 0; the tasks
array is left untouched. -/
def reconcileState (st : ProgressState) (currentTotal : Nat) : ProgressState :=
  if needsReset st currentTotal then
    { st with totalTasks := some currentTotal, lastIndex := 0 }
  else st

/-- Trace of the scheduled part of a run: the in-memory state after the last
task, all FailureRecords appended, per-item results, every state passed to
saveState inside the loop (none, since line 286 is unreachable), and the
rejection each task's promise ends with. -/
structure RunTrace where
  finalState : ProgressState
  failures : List FailureRecord
  results : List ItemResult
  saves : List ProgressState
  rejections : List String

/-- The mapped task closures (src/index.js lines 209-289), drained by the
p-limit queue (a task's rejection does not stop the remaining tasks): for
each scheduled item, at absolute index idx, the fetch-strategy chain runs and
its TaskRecord is pushed onto the in-memory state.tasks (line 263 or 267,
inside the try/catch); the closure then reads the undeclared
isUpdatingLastIndex at line 277 and throws a ReferenceError, so the lastIndex
update at line 282 and the saveState at line 286 never execute and the task's
promise rejects with that error. -/
def runScheduled (envs : Nat → ItemEnv) (retryLimit : Nat) :
    Nat → List DownloadItem → ProgressState → RunTrace
  | _, [], st =>
    { finalState := st, failures := [], results := [], saves := [],
      rejections := [] }
  | idx, item :: rest, st =>
    let r := processItem item (envs idx) retryLimit
    let st' : ProgressState :=
      { lastIndex := st.lastIndex, totalTasks := st.totalTasks,
        tasks := st.tasks ++ [r.record] }
    let t := runScheduled envs retryLimit (idx + 1) rest st'
    { finalState := t.finalState, failures := r.failures ++ t.failures,
      results := r :: t.results, saves := t.saves,
      rejections :=
        "ReferenceError: isUpdatingLastIndex is not defined" :: t.rejections }

/-- Observable outcome of one downloadDatasheets call on one batch.
taskErrors holds, in scheduling order, the error each task's promise rejected
with; Promise.all at line 291 rejects as soon as taskErrors is nonempty. -/
structure BatchResult where
  earlyReturn : Bool
  reconcileSave : Option ProgressState
  scheduledIndices : List Nat
  finalState : ProgressState
  newFailures : List FailureRecord
  results : List ItemResult
  savedStates : List ProgressState
  taskErrors : List String

/-- downloadDatasheets (src/index.js lines 189-293): load the state, reconcile
totalTasks against the batch length (saving when a reset happened), return
early when lastIndex already reached totalTasks, otherwise schedule the slice
from lastIndex to totalTasks and run each scheduled item. -/
def downloadDatasheets (jsonData : List DownloadItem) (envs : Nat → ItemEnv)
    (retryLimit : Nat) (persisted : Option ProgressState) : BatchResult :=
  let state0 := loadState persisted
  let didReset := needsReset state0 jsonData.length
  let state1 := reconcileState state0 jsonData.length
  let rSave : Option ProgressState := if didReset then some state1 else none
  let total := state1.totalTasks.getD 0
  if state1.lastIndex ≥ total then
    { earlyReturn := true, reconcileSave := rSave, scheduledIndices := [],
      finalState := state1, newFailures := [], results := [],
      savedStates := rSave.toList, taskErrors := [] }
  else
    let scheduled := (jsonData.take total).drop state1.lastIndex
    let t := runScheduled envs retryLimit state1.lastIndex scheduled state1
    { earlyReturn := false, reconcileSave := rSave,
      scheduledIndices := List.range' state1.lastIndex scheduled.length,
      finalState := t.finalState, newFailures := t.failures,
      results := t.results, savedStates := rSave.toList ++ t.saves,
      taskErrors := t.rejections }

/-- A sample item used as concrete input. -/
def sampleItem : DownloadItem := { id := 1, title := "A", url := "http://x/1.pdf" }

/-- Concrete environment: every HTTP attempt of every identity delivers a 404
rejection through the stream, with message "404 Not Found" (the string the
caller tests for); cookie harvesting and fallback succeed. -/
def env404 : ItemEnv :=
  { cookieNav := .ok [],
    gotOutcomes := fun _ _ => .streamSettled (.error ⟨some 404, "404 Not Found"⟩),
    jitter := fun _ => 0, puppeteerResult := .ok () }

/-- Concrete environment: every HTTP attempt of every identity delivers a 503
rejection through the stream, carrying the message the got library formats
for it; cookie harvesting and fallback succeed. -/
def env503 : ItemEnv :=
  { cookieNav := .ok [],
    gotOutcomes := fun _ _ =>
      .streamSettled (.error ⟨some 503, "Response code 503 (Service Unavailable)"⟩),
    jitter := fun _ => 0, puppeteerResult := .ok () }

/-- Concrete environment: cookie harvesting fails, although every HTTP attempt
would succeed and so would the fallback. -/
def envCookieFail : ItemEnv :=
  { cookieNav := .error "net error",
    gotOutcomes := fun _ _ => .streamSettled (.ok ()),
    jitter := fun _ => 0, puppeteerResult := .ok () }

/-- Concrete environment in which everything succeeds. -/
def envSucc : ItemEnv :=
  { cookieNav := .ok [("a", "b")],
    gotOutcomes := fun _ _ => .streamSettled (.ok ()),
    jitter := fun _ => 0, puppeteerResult := .ok () }

/-- When got.stream throws synchronously on every attempt with the same
non-503, non-429 error, the catch retries with no backoff delay and rethrows
the error on the last attempt; this is the only reachable retry path, since a
stream-delivered rejection ends the loop on its first attempt instead. -/
theorem gotLoop_generic (outcomes : Nat → AttemptOutcome) (jitter : Nat → Nat)
    (retryLimit : Nat) (e : HttpError)
    (h503 : e.statusCode ≠ some 503) (h429 : e.statusCode ≠ some 429)
    (hx : ∀ a, outcomes a = .syncThrow e) :
    ∀ fuel attempt, 1 ≤ fuel → attempt + fuel = retryLimit + 1 →
      gotLoop outcomes jitter retryLimit attempt fuel =
        { result := .error e, attempts := fuel, delays := [] } := by
  intro fuel
  induction fuel with
  | zero => intro attempt h1 _; omega
  | succ f ih =>
    intro attempt _ hsum
    simp only [gotLoop, hx attempt, if_neg h503, if_neg h429]
    rcases Nat.eq_zero_or_pos f with hf | hf
    · subst hf
      have : attempt = retryLimit := by omega
      simp [this]
    · have hne : ¬ attempt = retryLimit := by omega
      rw [if_neg hne]
      rw [ih (attempt + 1) hf (by omega)]

/-- downloadWithGot when got.stream throws synchronously with the same
non-503, non-429 error on every attempt: the error is rethrown after exactly
retryLimit attempts and no backoff sleeps. -/
theorem downloadWithGot_generic (outcomes : Nat → AttemptOutcome)
    (jitter : Nat → Nat) (retryLimit : Nat) (e : HttpError)
    (h503 : e.statusCode ≠ some 503) (h429 : e.statusCode ≠ some 429)
    (hx : ∀ a, outcomes a = .syncThrow e) (hrl : 1 ≤ retryLimit) :
    downloadWithGot outcomes jitter retryLimit =
      { result := .error e, attempts := retryLimit, delays := [] } := by
  unfold downloadWithGot
  exact gotLoop_generic outcomes jitter retryLimit e h503 h429 hx retryLimit 1 hrl (by omega)

/-- When the first attempt's got.stream call returns a stream, downloadWithGot
returns the stream promise at line 99 without awaiting it: the call makes
exactly one attempt, never sleeps, and settles with the raw stream outcome
(a rejection bypasses the catch and its classification entirely). -/
theorem downloadWithGot_streamSettled (outcomes : Nat → AttemptOutcome)
    (jitter : Nat → Nat) (retryLimit : Nat) (r : Except HttpError Unit)
    (h1 : outcomes 1 = .streamSettled r) (hrl : 1 ≤ retryLimit) :
    downloadWithGot outcomes jitter retryLimit =
      { result := r, attempts := 1, delays := [] } := by
  obtain ⟨f, rfl⟩ : ∃ f, retryLimit = f + 1 := ⟨retryLimit - 1, by omega⟩
  unfold downloadWithGot
  simp [gotLoop, h1]

/-- When the first identity's downloadWithGot settles with an error whose
message is exactly "404 Not Found", the identity loop appends one
FailureRecord with that reason and breaks without trying any further
identity. -/
theorem identityLoop_break404 (item : DownloadItem) (env : ItemEnv)
    (retryLimit : Nat) (c : Option Nat) (n : Nat) (d : List Nat)
    (hg : downloadWithGot (env.gotOutcomes 0) env.jitter retryLimit =
      { result := .error ⟨c, "404 Not Found"⟩, attempts := n, delays := d }) :
    identityLoop item env retryLimit USER_AGENTS 0 =
      { success := false,
        failures := [{ id := item.id, title := item.title, url := item.url,
                       reason := "404 Not Found" }],
        attempts := [n] } := by
  simp only [USER_AGENTS, identityLoop, hg]
  simp only [if_true]

/-- C3 counterexample: when cookie harvesting fails, the item is recorded as
failed and no direct fetch happens at all (even though every direct fetch
would have succeeded here), contradicting the claim that a cookie failure is
swallowed and the fetch proceeds. -/
theorem c3_cookie_counterexample :
    (processItem sampleItem envCookieFail 3).attemptsPerIdentity = [] ∧
      (processItem sampleItem envCookieFail 3).record.status = "failed" ∧
      (processItem sampleItem envCookieFail 3).fallbackInvoked = false := by
  decide

/-- C3 amended: a cookie-harvesting failure propagates from getCookies (which
rethrows) to the item-level catch: the item is recorded failed with the cookie
error message, one FailureRecord with that message is appended, and no direct
fetch and no fallback happens for the item. -/
theorem c3_cookie_failure_aborts_item (item : DownloadItem) (env : ItemEnv)
    (retryLimit : Nat) (m : String) (hc : env.cookieNav = .error m) :
    processItem item env retryLimit =
      { record := { id := item.id, url := item.url, status := "failed",
                    reason := some m },
        failures := [{ id := item.id, title := item.title, url := item.url,
                       reason := m }],
        attemptsPerIdentity := [], fallbackInvoked := false } := by
  simp [processItem, hc, getCookies]

/-- C3 witness: the amended theorem applied at a concrete input. -/
theorem c3_cookie_failure_aborts_item_witness :
    processItem sampleItem envCookieFail 3 =
      { record := { id := 1, url := "http://x/1.pdf", status := "failed",
                    reason := some "net error" },
        failures := [{ id := 1, title := "A", url := "http://x/1.pdf",
                       reason := "net error" }],
        attemptsPerIdentity := [], fallbackInvoked := false } :=
  c3_cookie_failure_aborts_item sampleItem envCookieFail 3 "net error" rfl

/-- C8 counterexample: the default state returned by loadState for a missing
state file has no totalTasks field at all, so it is not the claimed
three-field record with totalTasks 0. -/
theorem c8_default_counterexample :
    (loadState none).totalTasks = none ∧
      loadState none ≠ { lastIndex := 0, totalTasks := some 0, tasks := [] } := by
  decide

/-- C8 amended: loading with no persisted state returns lastIndex 0 and an
empty tasks list, with the totalTasks field absent (it only gets a value
during reconciliation). -/
theorem c8_default_state :
    loadState none = { lastIndex := 0, totalTasks := none, tasks := [] } := rfl

/-- C10: with a retry limit below 1 the attempt loop of downloadWithGot never
runs, so the call returns normally with zero HTTP attempts and no error, and
the caller therefore marks the item completed although nothing was fetched. -/
theorem c10_zero_retry_limit (item : DownloadItem) (env : ItemEnv)
    (nav : List (String × String)) (hc : env.cookieNav = .ok nav) :
    downloadWithGot (env.gotOutcomes 0) env.jitter 0 =
      { result := .ok (), attempts := 0, delays := [] } ∧
    processItem item env 0 =
      { record := { id := item.id, url := item.url, status := "completed",
                    reason := none },
        failures := [], attemptsPerIdentity := [0], fallbackInvoked := false } := by
  constructor
  · rfl
  · simp [processItem, hc, getCookies, identityLoop, USER_AGENTS,
      downloadWithGot, gotLoop]

/-- C10 witness: the theorem applied at a concrete input. -/
theorem c10_zero_retry_limit_witness :
    downloadWithGot (envSucc.gotOutcomes 0) envSucc.jitter 0 =
      { result := .ok (), attempts := 0, delays := [] } ∧
    processItem sampleItem envSucc 0 =
      { record := { id := 1, url := "http://x/1.pdf", status := "completed",
                    reason := none },
        failures := [], attemptsPerIdentity := [0], fallbackInvoked := false } :=
  c10_zero_retry_limit sampleItem envSucc [("a", "b")] rfl

/-- C1: a 404 is delivered through the response stream, whose rejection
bypasses downloadWithGot's catch (line 99 returns the promise without await),
so the program performs exactly one attempt for that identity with no
retries; the caller's test of the message "404 Not Found" then appends
exactly one FailureRecord with reason "404 Not Found" and short-circuits the
identity loop at once, trying no further identity. -/
theorem c1_404_single_attempt_and_break (item : DownloadItem) (env : ItemEnv)
    (retryLimit : Nat) (nav : List (String × String))
    (hc : env.cookieNav = .ok nav)
    (h404 : env.gotOutcomes 0 1 =
      .streamSettled (.error ⟨some 404, "404 Not Found"⟩))
    (hrl : 1 ≤ retryLimit)
    (hp : ∀ m, env.puppeteerResult = .error m → m ≠ "404 Not Found") :
    (processItem item env retryLimit).attemptsPerIdentity = [1] ∧
    ((processItem item env retryLimit).failures.countP
      (fun f => f.reason == "404 Not Found")) = 1 := by
  have hg := downloadWithGot_streamSettled (env.gotOutcomes 0) env.jitter
    retryLimit (.error ⟨some 404, "404 Not Found"⟩) h404 hrl
  have hl := identityLoop_break404 item env retryLimit (some 404) 1 [] hg
  cases hpp : env.puppeteerResult with
  | ok u =>
    simp [processItem, hc, getCookies, hl, hpp]
  | error m =>
    have hm := hp m hpp
    simp [processItem, hc, getCookies, hl, hpp, hm]

/-- C1 witness: the theorem applied at a concrete input. -/
theorem c1_404_single_attempt_and_break_witness :
    (processItem sampleItem env404 3).attemptsPerIdentity = [1] ∧
    ((processItem sampleItem env404 3).failures.countP
      (fun f => f.reason == "404 Not Found")) = 1 :=
  c1_404_single_attempt_and_break sampleItem env404 3 [] rfl rfl
    (by decide) (fun m h => nomatch h)

/-- C2 counterexample: with every identity's fetch delivering an HTTP 503
rejection and a retry limit of 3, the 503 classification never runs: each of
the five identities is attempted exactly once, no FailureRecord at all is
appended (in particular none with reason "503 Service Unavailable"), the
Puppeteer fallback IS invoked and (succeeding here) the item ends with status
"completed" rather than as a terminal failure; the task afterwards rejects
with the cursor-update ReferenceError instead of finishing cleanly. -/
theorem c2_503_counterexample :
    (processItem sampleItem env503 3).attemptsPerIdentity = [1, 1, 1, 1, 1] ∧
    (processItem sampleItem env503 3).failures = [] ∧
    (processItem sampleItem env503 3).fallbackInvoked = true ∧
    (processItem sampleItem env503 3).record.status = "completed" ∧
    (downloadDatasheets [sampleItem] (fun _ => env503) 3 none).taskErrors =
      ["ReferenceError: isUpdatingLastIndex is not defined"] := by
  decide

/-- C2 amended: a 503 arrives as a stream rejection, which bypasses
downloadWithGot's catch, so no retry budget is consumed and the max-retries
error is never produced: each of the five identities is attempted exactly
once, the identity loop appends no FailureRecord (its 503 test matches only
the never-thrown max-retries message) and never records reason
"503 Service Unavailable", and the renderer fallback IS invoked; the item's
TaskRecord is completed when the fallback succeeds and failed with the
fallback's message when it fails. -/
theorem c2_503_no_classification_fallback_runs (item : DownloadItem)
    (env : ItemEnv) (retryLimit : Nat) (nav : List (String × String))
    (msg : Nat → String)
    (hc : env.cookieNav = .ok nav)
    (h503 : ∀ idx, env.gotOutcomes idx 1 =
      .streamSettled (.error ⟨some 503, msg idx⟩))
    (hmsg : ∀ idx, msg idx ≠ "404 Not Found" ∧
      msg idx ≠ "503 Service Unavailable (Max retries reached)")
    (hrl : 1 ≤ retryLimit)
    (hp : ∀ m, env.puppeteerResult = .error m → m ≠ "503 Service Unavailable") :
    (processItem item env retryLimit).attemptsPerIdentity = [1, 1, 1, 1, 1] ∧
    ((processItem item env retryLimit).failures.countP
      (fun f => f.reason == "503 Service Unavailable")) = 0 ∧
    (processItem item env retryLimit).fallbackInvoked = true ∧
    (env.puppeteerResult = .ok () →
      (processItem item env retryLimit).record =
        { id := item.id, url := item.url, status := "completed", reason := none }) ∧
    (∀ m, env.puppeteerResult = .error m →
      (processItem item env retryLimit).record =
        { id := item.id, url := item.url, status := "failed", reason := some m }) := by
  have hg : ∀ idx, downloadWithGot (env.gotOutcomes idx) env.jitter retryLimit =
      { result := .error ⟨some 503, msg idx⟩, attempts := 1, delays := [] } :=
    fun idx => downloadWithGot_streamSettled (env.gotOutcomes idx) env.jitter
      retryLimit (.error ⟨some 503, msg idx⟩) (h503 idx) hrl
  have hl : identityLoop item env retryLimit USER_AGENTS 0 =
      { success := false, failures := [], attempts := [1, 1, 1, 1, 1] } := by
    simp [USER_AGENTS, identityLoop, hg 0, hg 1, hg 2, hg 3, hg 4,
      (hmsg 0).1, (hmsg 0).2, (hmsg 1).1, (hmsg 1).2, (hmsg 2).1, (hmsg 2).2,
      (hmsg 3).1, (hmsg 3).2, (hmsg 4).1, (hmsg 4).2]
  cases hpp : env.puppeteerResult with
  | ok u =>
    simp [processItem, hc, getCookies, hl, hpp]
  | error m =>
    have hm := hp m hpp
    simp [processItem, hc, getCookies, hl, hpp, hm]

/-- C2 witness: the amended theorem applied at a concrete input. -/
theorem c2_503_no_classification_fallback_runs_witness :
    (processItem sampleItem env503 3).attemptsPerIdentity = [1, 1, 1, 1, 1] ∧
    ((processItem sampleItem env503 3).failures.countP
      (fun f => f.reason == "503 Service Unavailable")) = 0 ∧
    (processItem sampleItem env503 3).fallbackInvoked = true ∧
    (env503.puppeteerResult = .ok () →
      (processItem sampleItem env503 3).record =
        { id := 1, url := "http://x/1.pdf", status := "completed", reason := none }) ∧
    (∀ m, env503.puppeteerResult = .error m →
      (processItem sampleItem env503 3).record =
        { id := 1, url := "http://x/1.pdf", status := "failed", reason := some m }) :=
  c2_503_no_classification_fallback_runs sampleItem env503 3 []
    (fun _ => "Response code 503 (Service Unavailable)") rfl (fun _ => rfl)
    (fun _ =>
      ⟨(by decide :
          "Response code 503 (Service Unavailable)" ≠ "404 Not Found"),
       (by decide :
          "Response code 503 (Service Unavailable)" ≠
            "503 Service Unavailable (Max retries reached)")⟩)
    (by decide) (fun m h => nomatch h)

/-- Every branch of processItem records the item's own id and url in its
TaskRecord, with status either completed or failed. -/
theorem processItem_record_shape (item : DownloadItem) (env : ItemEnv)
    (retryLimit : Nat) :
    (processItem item env retryLimit).record.id = item.id ∧
    (processItem item env retryLimit).record.url = item.url ∧
    ((processItem item env retryLimit).record.status = "completed" ∨
     (processItem item env retryLimit).record.status = "failed") := by
  cases h : getCookies env.cookieNav with
  | error m => simp [processItem, h]
  | ok c =>
    simp only [processItem, h]
    split
    · simp
    · split <;> simp

/-- runScheduled never changes totalTasks. -/
theorem runScheduled_totalTasks (envs : Nat → ItemEnv) (retryLimit : Nat) :
    ∀ (items : List DownloadItem) (idx : Nat) (st : ProgressState),
      (runScheduled envs retryLimit idx items st).finalState.totalTasks =
        st.totalTasks := by
  intro items
  induction items with
  | nil => intro idx st; rfl
  | cons hd tl ih =>
    intro idx st
    simp only [runScheduled]
    rw [ih]

/-- The scheduling loop never reaches saveState: line 286 sits after the
ReferenceError thrown at line 277, so no state is saved inside the loop. -/
theorem runScheduled_saves_nil (envs : Nat → ItemEnv) (retryLimit : Nat) :
    ∀ (items : List DownloadItem) (idx : Nat) (st : ProgressState),
      (runScheduled envs retryLimit idx items st).saves = [] := by
  intro items
  induction items with
  | nil => intro idx st; rfl
  | cons hd tl ih =>
    intro idx st
    simp only [runScheduled]
    rw [ih]

/-- Every task of the scheduling loop rejects with the ReferenceError raised
by reading the undeclared isUpdatingLastIndex at line 277. -/
theorem runScheduled_rejections (envs : Nat → ItemEnv) (retryLimit : Nat) :
    ∀ (items : List DownloadItem) (idx : Nat) (st : ProgressState),
      (runScheduled envs retryLimit idx items st).rejections =
        List.replicate items.length
          "ReferenceError: isUpdatingLastIndex is not defined" := by
  intro items
  induction items with
  | nil => intro idx st; rfl
  | cons hd tl ih =>
    intro idx st
    simp only [runScheduled, List.length_cons, List.replicate_succ]
    rw [ih]

/-- The cursor is never advanced by the scheduling loop: the increment at
line 282 sits after the ReferenceError thrown at line 277. -/
theorem runScheduled_lastIndex (envs : Nat → ItemEnv) (retryLimit : Nat) :
    ∀ (items : List DownloadItem) (idx : Nat) (st : ProgressState),
      (runScheduled envs retryLimit idx items st).finalState.lastIndex =
        st.lastIndex := by
  intro items
  induction items with
  | nil => intro idx st; rfl
  | cons hd tl ih =>
    intro idx st
    simp only [runScheduled]
    rw [ih]

/-- The TaskRecords pushed onto the in-memory state by the scheduling loop
(line 263 or 267, which do run, unlike the save that follows): exactly one
per scheduled item, in order, carrying that item's id and url, each with
status completed or failed. -/
theorem runScheduled_tasks (envs : Nat → ItemEnv) (retryLimit : Nat) :
    ∀ (items : List DownloadItem) (idx : Nat) (st : ProgressState),
      ∃ recs : List TaskRecord,
        (runScheduled envs retryLimit idx items st).finalState.tasks =
          st.tasks ++ recs ∧
        recs.map (fun r => (r.id, r.url)) =
          items.map (fun it => (it.id, it.url)) ∧
        ∀ r ∈ recs, r.status = "completed" ∨ r.status = "failed" := by
  intro items
  induction items with
  | nil =>
    intro idx st
    exact ⟨[], by simp [runScheduled], by simp, by simp⟩
  | cons hd tl ih =>
    intro idx st
    obtain ⟨recs, h1, h2, h3⟩ := ih (idx + 1)
      { lastIndex := st.lastIndex, totalTasks := st.totalTasks,
        tasks := st.tasks ++ [(processItem hd (envs idx) retryLimit).record] }
    obtain ⟨hid, hurl, hstat⟩ := processItem_record_shape hd (envs idx) retryLimit
    refine ⟨(processItem hd (envs idx) retryLimit).record :: recs, ?_, ?_, ?_⟩
    · simp only [runScheduled]
      rw [h1]
      simp
    · simp [h2, hid, hurl]
    · intro r hr
      rcases List.mem_cons.mp hr with hr | hr
      · subst hr; exact hstat
      · exact h3 r hr

/-- After reconciliation totalTasks always equals the current batch length. -/
theorem reconcileState_totalTasks (st : ProgressState) (len : Nat) :
    (reconcileState st len).totalTasks = some len := by
  unfold reconcileState needsReset
  cases h : st.totalTasks with
  | none => simp
  | some t =>
    by_cases h0 : t = 0
    · simp [h0]
    · by_cases hlen : t = len
      · subst hlen
        simp [h0, h]
      · simp [h0, hlen]

/-- A totalTasks mismatch forces the reset branch. -/
theorem needsReset_of_ne (st : ProgressState) (len : Nat)
    (h : st.totalTasks ≠ some len) : needsReset st len = true := by
  unfold needsReset
  cases ht : st.totalTasks with
  | none => rfl
  | some t =>
    have : t ≠ len := fun he => h (by rw [ht, he])
    simp [this]

/-- The reset branch zeroes the cursor. -/
theorem reconcileState_reset_lastIndex (st : ProgressState) (len : Nat)
    (h : needsReset st len = true) : (reconcileState st len).lastIndex = 0 := by
  simp [reconcileState, h]

/-- The reset branch leaves the tasks array untouched. -/
theorem reconcileState_reset_eq (st : ProgressState) (len : Nat)
    (h : needsReset st len = true) :
    reconcileState st len =
      { lastIndex := 0, totalTasks := some len, tasks := st.tasks } := by
  simp [reconcileState, h]

/-- If the persisted state satisfies the cursor invariant, so does the
reconciled state. -/
theorem reconcileState_wf (persisted : Option ProgressState) (len : Nat)
    (hwf : ∀ st, persisted = some st → st.lastIndex ≤ st.totalTasks.getD 0) :
    (reconcileState (loadState persisted) len).lastIndex ≤
      (reconcileState (loadState persisted) len).totalTasks.getD 0 := by
  by_cases hn : needsReset (loadState persisted) len = true
  · rw [reconcileState_reset_lastIndex _ _ hn]
    exact Nat.zero_le _
  · have he : reconcileState (loadState persisted) len = loadState persisted := by
      simp [reconcileState, hn]
    rw [he]
    cases persisted with
    | none => simp [loadState]
    | some st => simpa [loadState] using hwf st rfl

/-- C4 counterexample: resuming with a stale totalTasks of 5 against a batch
of 3 items persists a reconciled state whose tasks sequence still holds the
old record, not the empty sequence the claim requires. -/
theorem c4_reconcile_counterexample :
    (downloadDatasheets
        [{ id := 1, title := "A", url := "uA" },
         { id := 2, title := "B", url := "uB" },
         { id := 3, title := "C", url := "uC" }]
        (fun _ => envSucc) 3
        (some { lastIndex := 2, totalTasks := some 5,
                tasks := [{ id := 9, url := "u", status := "completed",
                            reason := none }] })).reconcileSave =
      some { lastIndex := 0, totalTasks := some 3,
             tasks := [{ id := 9, url := "u", status := "completed",
                         reason := none }] } ∧
    (downloadDatasheets
        [{ id := 1, title := "A", url := "uA" },
         { id := 2, title := "B", url := "uB" },
         { id := 3, title := "C", url := "uC" }]
        (fun _ => envSucc) 3
        (some { lastIndex := 2, totalTasks := some 5,
                tasks := [{ id := 9, url := "u", status := "completed",
                            reason := none }] })).reconcileSave ≠
      some { lastIndex := 0, totalTasks := some 3, tasks := [] } := by
  decide

/-- C4 amended: when the persisted totalTasks differs from the batch length,
the reconciliation resets lastIndex to 0, sets totalTasks to the batch length
and persists that state first (before any fetching), but keeps the existing
tasks sequence instead of clearing it. -/
theorem c4_reconcile_resets_cursor (jsonData : List DownloadItem)
    (envs : Nat → ItemEnv) (retryLimit : Nat) (st : ProgressState)
    (h : st.totalTasks ≠ some jsonData.length) :
    (downloadDatasheets jsonData envs retryLimit (some st)).reconcileSave =
      some { lastIndex := 0, totalTasks := some jsonData.length,
             tasks := st.tasks } ∧
    (downloadDatasheets jsonData envs retryLimit (some st)).savedStates.head? =
      some { lastIndex := 0, totalTasks := some jsonData.length,
             tasks := st.tasks } := by
  have hn : needsReset st jsonData.length = true :=
    needsReset_of_ne st jsonData.length h
  have hload : loadState (some st) = st := rfl
  have hrec := reconcileState_reset_eq st jsonData.length hn
  constructor
  · simp only [downloadDatasheets, hload, hn, hrec]
    split <;> simp
  · simp only [downloadDatasheets, hload, hn, hrec]
    split <;> simp

/-- C4 witness: the amended theorem applied at a concrete input. -/
theorem c4_reconcile_resets_cursor_witness :
    (downloadDatasheets
        [{ id := 1, title := "A", url := "uA" }] (fun _ => envSucc) 3
        (some { lastIndex := 2, totalTasks := some 5, tasks := [] })).reconcileSave =
      some { lastIndex := 0, totalTasks := some 1, tasks := [] } ∧
    (downloadDatasheets
        [{ id := 1, title := "A", url := "uA" }] (fun _ => envSucc) 3
        (some { lastIndex := 2, totalTasks := some 5,
                tasks := [] })).savedStates.head? =
      some { lastIndex := 0, totalTasks := some 1, tasks := [] } :=
  c4_reconcile_resets_cursor [{ id := 1, title := "A", url := "uA" }]
    (fun _ => envSucc) 3
    { lastIndex := 2, totalTasks := some 5, tasks := [] } (by decide)

/-- The absolute indices scheduled by downloadDatasheets: none when the
reconciled cursor already reached the batch length, else exactly the range
from the reconciled cursor to the end of the batch. -/
theorem downloadDatasheets_scheduledIndices (jsonData : List DownloadItem)
    (envs : Nat → ItemEnv) (retryLimit : Nat) (persisted : Option ProgressState) :
    (downloadDatasheets jsonData envs retryLimit persisted).scheduledIndices =
      if (reconcileState (loadState persisted) jsonData.length).lastIndex ≥
          jsonData.length then []
      else List.range'
        (reconcileState (loadState persisted) jsonData.length).lastIndex
        (jsonData.length -
          (reconcileState (loadState persisted) jsonData.length).lastIndex) := by
  have ht := reconcileState_totalTasks (loadState persisted) jsonData.length
  simp only [downloadDatasheets, ht, Option.getD_some]
  split
  next hge => rfl
  next hge =>
    show List.range' _ _ = List.range' _ _
    rw [List.take_length, List.length_drop]

/-- C6: resuming with a persisted totalTasks equal to the current batch
length schedules no index below the persisted cursor, and when the cursor is
inside the batch it schedules exactly the indices from the cursor onward. -/
theorem c6_resume_schedules_only_from_cursor (jsonData : List DownloadItem)
    (envs : Nat → ItemEnv) (retryLimit : Nat) (st : ProgressState)
    (h : st.totalTasks = some jsonData.length) :
    (∀ i ∈ (downloadDatasheets jsonData envs retryLimit (some st)).scheduledIndices,
      st.lastIndex ≤ i) ∧
    (st.lastIndex < jsonData.length →
      (downloadDatasheets jsonData envs retryLimit (some st)).scheduledIndices =
        List.range' st.lastIndex (jsonData.length - st.lastIndex)) := by
  have hs := downloadDatasheets_scheduledIndices jsonData envs retryLimit (some st)
  have hload : loadState (some st) = st := rfl
  rw [hload] at hs
  by_cases hlen : jsonData.length = 0
  · have hnone : (downloadDatasheets jsonData envs retryLimit
        (some st)).scheduledIndices = [] := by
      rw [hs, if_pos (by omega)]
    rw [hnone]
    exact ⟨fun i hi => absurd hi (List.not_mem_nil i), fun hlt => by omega⟩
  · have hn : needsReset st jsonData.length = false := by
      unfold needsReset
      rw [h]
      simp [hlen]
    have he : reconcileState st jsonData.length = st := by
      simp [reconcileState, hn]
    rw [he] at hs
    constructor
    · intro i hi
      rw [hs] at hi
      by_cases hge : st.lastIndex ≥ jsonData.length
      · rw [if_pos hge] at hi
        cases hi
      · rw [if_neg hge] at hi
        obtain ⟨j, hj, hji⟩ := List.mem_range'.mp hi
        omega
    · intro hlt
      rw [hs, if_neg (by omega)]

/-- C6 witness: the theorem applied at a concrete input. -/
theorem c6_resume_schedules_only_from_cursor_witness :
    (∀ i ∈ (downloadDatasheets
        [{ id := 1, title := "A", url := "uA" },
         { id := 2, title := "B", url := "uB" }]
        (fun _ => envSucc) 3
        (some { lastIndex := 1, totalTasks := some 2,
                tasks := [] })).scheduledIndices,
      (1 : Nat) ≤ i) ∧
    ((1 : Nat) < 2 →
      (downloadDatasheets
        [{ id := 1, title := "A", url := "uA" },
         { id := 2, title := "B", url := "uB" }]
        (fun _ => envSucc) 3
        (some { lastIndex := 1, totalTasks := some 2,
                tasks := [] })).scheduledIndices = List.range' 1 1) :=
  c6_resume_schedules_only_from_cursor
    [{ id := 1, title := "A", url := "uA" },
     { id := 2, title := "B", url := "uB" }]
    (fun _ => envSucc) 3
    { lastIndex := 1, totalTasks := some 2, tasks := [] } rfl

/-- C7: every state the orchestration persists satisfies the invariant
0 <= lastIndex <= totalTasks; the only save that ever runs is the reconcile
save (the per-item save at line 286 is unreachable), and it carries
lastIndex 0. -/
theorem c7_saved_states_invariant (jsonData : List DownloadItem)
    (envs : Nat → ItemEnv) (retryLimit : Nat) (persisted : Option ProgressState) :
    ∀ s ∈ (downloadDatasheets jsonData envs retryLimit persisted).savedStates,
      0 ≤ s.lastIndex ∧ s.lastIndex ≤ s.totalTasks.getD 0 := by
  intro s hs
  refine ⟨Nat.zero_le _, ?_⟩
  have ht := reconcileState_totalTasks (loadState persisted) jsonData.length
  simp only [downloadDatasheets, ht, Option.getD_some] at hs
  split at hs
  next hge =>
    split at hs
    next hn =>
      simp only [Option.toList_some, List.mem_singleton] at hs
      subst hs
      rw [reconcileState_reset_lastIndex _ _ hn]
      exact Nat.zero_le _
    next hn => simp at hs
  next hge =>
    rcases List.mem_append.mp hs with hmem | hmem
    · split at hmem
      next hn =>
        simp only [Option.toList_some, List.mem_singleton] at hmem
        subst hmem
        rw [reconcileState_reset_lastIndex _ _ hn]
        exact Nat.zero_le _
      next hn => simp at hmem
    · rw [runScheduled_saves_nil] at hmem
      cases hmem

/-- C7 witness: the theorem applied at a concrete saved state of a concrete
run. -/
theorem c7_saved_states_invariant_witness :
    0 ≤ (ProgressState.mk 0 (some 1) []).lastIndex ∧
      (ProgressState.mk 0 (some 1) []).lastIndex ≤
        (ProgressState.mk 0 (some 1) []).totalTasks.getD 0 :=
  c7_saved_states_invariant [{ id := 1, title := "A", url := "uA" }]
    (fun _ => envSucc) 3 none { lastIndex := 0, totalTasks := some 1, tasks := [] }
    (by decide)

/-- The final state of downloadDatasheets: untouched (beyond reconciliation)
when the cursor already covers the batch, else the state after running the
scheduled tail of the batch. -/
theorem downloadDatasheets_finalState (jsonData : List DownloadItem)
    (envs : Nat → ItemEnv) (retryLimit : Nat) (persisted : Option ProgressState) :
    (downloadDatasheets jsonData envs retryLimit persisted).finalState =
      if (reconcileState (loadState persisted) jsonData.length).lastIndex ≥
          jsonData.length
      then reconcileState (loadState persisted) jsonData.length
      else (runScheduled envs retryLimit
        (reconcileState (loadState persisted) jsonData.length).lastIndex
        (jsonData.drop (reconcileState (loadState persisted) jsonData.length).lastIndex)
        (reconcileState (loadState persisted) jsonData.length)).finalState := by
  have ht := reconcileState_totalTasks (loadState persisted) jsonData.length
  simp only [downloadDatasheets, ht, Option.getD_some]
  split
  next => rfl
  next => rw [List.take_length]

/-- C5 (code bug): the cursor-update block after each item never runs,
because reading the undeclared isUpdatingLastIndex at line 277 throws a
ReferenceError in every task, after the item's try/catch has closed.
Consequently lastIndex never advances past its reconciled value (so a run
does not end with lastIndex equal to totalTasks whenever any item was
scheduled), the only state ever persisted is the reconcile save, and every
scheduled task's promise rejects with the ReferenceError. -/
theorem c5_cursor_never_advances (jsonData : List DownloadItem)
    (envs : Nat → ItemEnv) (retryLimit : Nat) (persisted : Option ProgressState) :
    (downloadDatasheets jsonData envs retryLimit persisted).finalState.lastIndex =
      (reconcileState (loadState persisted) jsonData.length).lastIndex ∧
    (downloadDatasheets jsonData envs retryLimit persisted).savedStates =
      (downloadDatasheets jsonData envs retryLimit persisted).reconcileSave.toList ∧
    (downloadDatasheets jsonData envs retryLimit persisted).taskErrors =
      List.replicate
        (downloadDatasheets jsonData envs retryLimit
          persisted).scheduledIndices.length
        "ReferenceError: isUpdatingLastIndex is not defined" := by
  have ht := reconcileState_totalTasks (loadState persisted) jsonData.length
  refine ⟨?_, ?_, ?_⟩
  · rw [downloadDatasheets_finalState]
    split
    · rfl
    · rw [runScheduled_lastIndex]
  · simp only [downloadDatasheets, ht, Option.getD_some]
    split
    · rfl
    · dsimp only
      rw [runScheduled_saves_nil, List.append_nil]
  · simp only [downloadDatasheets, ht, Option.getD_some]
    split
    · rfl
    · dsimp only
      rw [runScheduled_rejections, List.length_range']

/-- C9 (code bug): an HTTP 503 arrives as a stream rejection, and line 99
returns the stream promise without awaiting it, so the rejection bypasses
the catch holding the 503 classification: downloadWithGot makes exactly one
attempt, sleeps no backoff delay, and settles with the raw 503 error; the
"503 Service Unavailable (Max retries reached)" error is never produced. -/
theorem c9_503_single_attempt_no_backoff (msg : String) (jitter : Nat → Nat)
    (retryLimit : Nat) (h : 1 ≤ retryLimit) :
    downloadWithGot (fun _ => .streamSettled (.error ⟨some 503, msg⟩)) jitter
        retryLimit =
      { result := .error ⟨some 503, msg⟩, attempts := 1, delays := [] } :=
  downloadWithGot_streamSettled _ jitter retryLimit _ rfl h

/-- C9 witness: the theorem applied at a concrete input. -/
theorem c9_503_single_attempt_no_backoff_witness :
    downloadWithGot
        (fun _ => .streamSettled
          (.error ⟨some 503, "Response code 503 (Service Unavailable)"⟩))
        (fun _ => 7) 3 =
      { result := .error ⟨some 503, "Response code 503 (Service Unavailable)"⟩,
        attempts := 1, delays := [] } :=
  c9_503_single_attempt_no_backoff "Response code 503 (Service Unavailable)"
    (fun _ => 7) 3 (by decide)
